import Mathlib

/-!
Verification of the JADBio Python client core.

Shallow embedding of the core of the `jadbio` Python client library:
the response-envelope parser (`JadbioClient.__parse_response__` /
`__request_failed__` in `jadbio/client.py`), session/token handling
(`login`, `logout`, `get_version`), the raw-CSV prediction result
endpoint (`get_prediction_result`), and the three task-polling loops
(`jadbio/task.py` `wait_for_job`, `examples/helper.py` `upload_dataset`,
`examples/image_upload1.py` `wait_for_job`).

Modelling conventions:
* JSON values are the inductive `Json`; Python dict indexing `d[k]` is
  `Json.index`, which raises `KeyError` on a missing key and `TypeError`
  on a non-dict, as Python does.
* The HTTP transport is out of scope (an external collaborator per the
  design); a transport response is an `HttpResponse` record carrying the
  integer status code, the body text `content`, and `body`, the JSON
  decode of `content` (`none` when the body is not valid JSON).  An
  operation that performs a round trip takes the transport as an oracle
  `HttpRequest → HttpResponse`; a polling loop takes the oracle
  `server : Nat → HttpResponse` giving the response to its i-th status
  query.
* Python exceptions become `Except` errors; each exception class is a
  `ClientError` constructor carrying the data the Python object holds.
* Wall-clock time in the `upload_dataset` loop advances only at
  `time.sleep(3)` calls (zero call latency), so elapsed time after the
  poll with index `i` is `3 * i` seconds.
* `while True` loops are embedded with an explicit fuel argument; a
  result of `none` means the loop was still running after `fuel`
  iterations.  The loop functions also return the 0-based index of the
  poll at which they exited, so "exactly k polls" is "index k - 1".
-/

/-- JSON values, as decoded from a response body (Python `resp.json()` /
`json.loads`).  Objects are association lists of string keys. -/
inductive Json where
  | null : Json
  | bool (b : Bool) : Json
  | num (n : Int) : Json
  | str (s : String) : Json
  | arr (elems : List Json) : Json
  | obj (kvs : List (String × Json)) : Json
deriving Repr

/-- First value bound to key `k`, as Python dict lookup (later duplicate
keys in a JSON text overwrite earlier ones before the client sees the
dict; the embedding works with the final association list). -/
def lookupKV (kvs : List (String × Json)) (k : String) : Option Json :=
  match kvs with
  | [] => none
  | (k1, v) :: rest => if k1 == k then some v else lookupKV rest k

/-- Python `x == 'lit'` for a JSON value `x` and a string literal:
true exactly when `x` is that string. -/
def jsonEqStr (j : Json) (s : String) : Bool :=
  match j with
  | .str t => t == s
  | _ => false

/-- Errors (Python exceptions) that client code can raise.
`requestFailed` is `RequestFailed` raised by `__request_failed__`; its
message is built from the operation label, the response object and the
response body, so the constructor carries label, status code and body
text.  `jadError` is `JadRequestResponseError`; its message is built
from the label and the `message`/`code` fields of the decoded body, so
the constructor carries the decoded body and the label.  The remaining
constructors are built-in Python exceptions: `json.JSONDecodeError`,
`KeyError`, `TypeError`, `AttributeError`, a bare `raise` with no active
exception (`RuntimeError`), and `TimeoutError("Timeout reached")`. -/
inductive ClientError where
  | requestFailed (lbl : String) (statusCode : Nat) (content : String)
  | jadError (res : Json) (lbl : String)
  | jsonDecodeError
  | keyError (k : String)
  | typeError
  | attributeError
  | bareRaise
  | timeoutError
deriving Repr

/-- Python `d[k]`: value at `k` for a dict, `KeyError` when the key is
missing, `TypeError` when `d` is not a dict. -/
def Json.index (j : Json) (k : String) : Except ClientError Json :=
  match j with
  | .obj kvs =>
    match lookupKV kvs k with
    | some v => .ok v
    | none => .error (.keyError k)
  | _ => .error .typeError

/-- A transport response: status code, body text, and the JSON decode of
the body text (`none` when the body is not valid JSON).  Decoding is the
transport codec's job, which is out of scope, so both views are carried
as fields. -/
structure HttpResponse where
  statusCode : Nat
  content : String
  body : Option Json
deriving Repr

/-- The `requests` library marks a response `ok` when its status code is below 400. -/
def HttpResponse.ok (r : HttpResponse) : Bool := r.statusCode < 400

/-- A request as the client hands it to the transport: URL and the
optional `Authorization` header value (absent when the stored token is
`None`). -/
structure HttpRequest where
  url : String
  authHeader : Option String
deriving Repr

/-- Python `JadbioClient.__parse_response__(resp, where)`:
raise `RequestFailed` unless the status code is exactly 200 (via
`__request_failed__`, whose message holds the label and the body text);
decode the body; raise `JadRequestResponseError` unless the decoded
body's `status` field equals `"success"`; return the `payload` field. -/
def parse_response (resp : HttpResponse) (lbl : String) : Except ClientError Json :=
  if resp.statusCode ≠ 200 then
    .error (.requestFailed lbl resp.statusCode resp.content)
  else
    match resp.body with
    | none => .error .jsonDecodeError
    | some res =>
      match res.index "status" with
      | .error e => .error e
      | .ok st =>
        if jsonEqStr st "success" then res.index "payload"
        else .error (.jadError res lbl)

/-- True exactly on a `JadRequestResponseError` outcome: used to state
that an operation never raises the logical envelope error. -/
def isJadError (r : Except ClientError Json) : Bool :=
  match r with
  | .error (.jadError _ _) => true
  | _ => false

/-- The underlying `requests.Session` object: `gen` is its identity
(incremented each time `login` builds a fresh `Session()`), `closed`
whether `close()` has been called on it.  `Session.close()` never raises,
also on an already-closed session. -/
structure SessionObj where
  gen : Nat
  closed : Bool
deriving Repr, DecidableEq

/-- Client instance state (`JadbioClient`): the base URL computed in
`__init__`, the current `requests.Session` object, and `__token`, the
stored `Authorization` header value (`'Bearer <token>'`), `none` after
`logout` or before a successful `login`. -/
structure ClientState where
  baseUrl : String
  session : SessionObj
  token : Option String
deriving Repr, DecidableEq

/-- Python `JadbioClient.logout`: `self.__session.close(); self.__token = None`.
Total — closing an already-closed session does not raise. -/
def logout (c : ClientState) : ClientState :=
  { c with session := { c.session with closed := true }, token := none }

/-- Python `JadbioClient.login(username, password)` given the transport's
response to the login POST.  Mirrors the statement order of the source:
`self.__session = Session()` replaces the session object first; then the
response is parsed and `login['token']` extracted (both can raise, and
`' '.join(['Bearer', t])` raises `TypeError` on a non-string `t`); only
after that is `self.__token` assigned.  Returns the post-state and the
raised exception, if any. -/
def login (c : ClientState) (resp : HttpResponse) :
    ClientState × Except ClientError Unit :=
  let c1 : ClientState :=
    { c with session := { gen := c.session.gen + 1, closed := false } }
  match (parse_response resp "Login").bind (fun p => p.index "token") with
  | .error e => (c1, .error e)
  | .ok t =>
    match t with
    | .str s => ({ c1 with token := some ("Bearer " ++ s) }, .ok ())
    | _ => (c1, .error .typeError)

/-- The GET request `get_version` sends: path `version` under the base
URL, with `headers=self.__token` (no `Authorization` header when the
token is `None`). -/
def get_version_request (c : ClientState) : HttpRequest :=
  { url := c.baseUrl ++ "version", authHeader := c.token }

/-- Python `JadbioClient.get_version` given a transport oracle: send the GET,
parse the envelope with label `'Get Version'`, return
`payload['version']`.  No client-side check precedes the round trip. -/
def get_version (c : ClientState) (transport : HttpRequest → HttpResponse) :
    Except ClientError Json :=
  (parse_response (transport (get_version_request c)) "Get Version").bind
    (fun p => p.index "version")

/-- Python `JadbioClient.get_prediction_result` given the transport's response:
unless the status code is exactly 200, raise `RequestFailed` (via
`__request_failed__`); otherwise return the body text
(`ret.content.decode("utf-8")`) — no envelope parsing. -/
def get_prediction_result (resp : HttpResponse) : Except ClientError String :=
  if resp.statusCode ≠ 200 then
    .error (.requestFailed "Get prediction result" resp.statusCode resp.content)
  else
    .ok resp.content

/-- Python `JadbioClient.get_task_status(task_id)` given the transport's
response to the status GET: parse the envelope with label `'Get task'`
and return the payload. -/
def get_task_status (resp : HttpResponse) : Except ClientError Json :=
  parse_response resp "Get task"

/-- Outcome of `wait_for_job` in `jadbio/task.py`.  `success d` is the
returned `resp_body['did']`; `transportRaise` is the bare `raise` after
`if not resp.ok` (carrying the printed body text); `errorRaise` is the
bare `raise` on state `'ERROR'`; `pyError` is a propagated built-in
exception (JSON decode failure or dict indexing). -/
inductive TaskOutcome where
  | success (did : Json)
  | transportRaise (content : String)
  | errorRaise
  | pyError (e : ClientError)
deriving Repr

/-- One iteration body of `task.py`'s `wait_for_job`, on the transport
response of one status poll: `none` means the `else` branch (print
`RUNNING`, sleep 1 second, poll again); `some out` means the loop exits
with outcome `out`.  Follows the source line by line: `resp.ok` check,
`json.loads(resp.content)`, `resp_body['state']`, comparison with
`'ERROR'` then `'FINISHED'`, result `resp_body['did']`. -/
def taskStep (r : HttpResponse) : Option TaskOutcome :=
  if ¬ r.ok then some (.transportRaise r.content)
  else
    match r.body with
    | none => some (.pyError .jsonDecodeError)
    | some resp_body =>
      match resp_body.index "state" with
      | .error e => some (.pyError e)
      | .ok st =>
        if jsonEqStr st "ERROR" then some .errorRaise
        else if jsonEqStr st "FINISHED" then
          some (match resp_body.index "did" with
                | .ok d => .success d
                | .error e => .pyError e)
        else none

/-- Python `wait_for_job(host, token, job)` of `jadbio/task.py`: poll
`get_task_state` forever until a terminal poll.  `server i` is the
transport response to the i-th poll, `i` the index of the next poll,
`fuel` the iteration bound of the embedding; `none` means the loop is
still running after `fuel` polls, `some (out, k)` that it exited at the
poll with index `k` (so after exactly `k + 1` polls and `k` sleeps). -/
def wait_for_job (server : Nat → HttpResponse) :
    Nat → Nat → Option (TaskOutcome × Nat)
  | 0, _ => none
  | fuel + 1, i =>
    match taskStep (server i) with
    | some out => some (out, i)
    | none => wait_for_job server fuel (i + 1)

/-- Outcome of the polling loop of `upload_dataset` in
`examples/helper.py`: the returned `status['datasetId']`, the raised
`TimeoutError("Timeout reached")`, or a propagated exception from
`get_task_status` or dict indexing. -/
inductive UploadOutcome where
  | success (datasetId : Json)
  | timeoutRaise
  | pyError (e : ClientError)
deriving Repr

/-- The polling loop of `upload_dataset` (`examples/helper.py`):

```
status = client.get_task_status(tid); start = time.time()
while status['state'] != 'finished':
    if time.time() - start > timeout: raise TimeoutError("Timeout reached")
    time.sleep(3)
    status = client.get_task_status(tid)
return status['datasetId']
```

`server i` is the transport response to the i-th `get_task_status`
call; when the current `status` came from poll `i`, the loop has slept
`i` times, so `time.time() - start` is `3 * i` (time advances only in
`sleep`).  `timeout` is the function's timeout argument in seconds
(default `10 * 60`).  `some (out, k)` means exit at poll index `k`;
`none` that the loop was still running after `fuel` iterations. -/
def upload_dataset_loop (server : Nat → HttpResponse) (timeout : Nat) :
    Nat → Nat → Option (UploadOutcome × Nat)
  | 0, _ => none
  | fuel + 1, i =>
    match get_task_status (server i) with
    | .error e => some (.pyError e, i)
    | .ok status =>
      match status.index "state" with
      | .error e => some (.pyError e, i)
      | .ok st =>
        if jsonEqStr st "finished" then
          match status.index "datasetId" with
          | .ok d => some (.success d, i)
          | .error e => some (.pyError e, i)
        else if 3 * i > timeout then some (.timeoutRaise, i)
        else upload_dataset_loop server timeout fuel (i + 1)

/-- ASCII uppercasing of one character, as Python `str.upper` acts on
ASCII text (the task states are ASCII). -/
def upChar (c : Char) : Char :=
  if 97 ≤ c.toNat ∧ c.toNat ≤ 122 then Char.ofNat (c.toNat - 32) else c

/-- Python `s.upper()` for ASCII strings. -/
def upStr (s : String) : String := String.mk (s.data.map upChar)

/-- Outcome of `wait_for_job` in `examples/image_upload1.py`: the
returned `resp_body['datasetId']`, the bare `raise` on state `'ERROR'`,
or a propagated exception (`get_task_status` envelope errors, dict
indexing, `.upper()` on a non-string). -/
inductive ImageOutcome where
  | success (datasetId : Json)
  | errorRaise
  | pyError (e : ClientError)
deriving Repr

/-- One iteration body of `image_upload1.py`'s `wait_for_job`, on the
transport response of one `get_task_status` call: `resp_body =
client.get_task_status(task)`, `status = resp_body['state'].upper()`
(`AttributeError` unless the state is a string; `upStr` is the ASCII
model of `str.upper`, enough for the state strings), comparison with
`'ERROR'` then `'FINISHED'`, result `resp_body['datasetId']`; `none`
means print `RUNNING`, sleep 1 second and poll again. -/
def imageStep (r : HttpResponse) : Option ImageOutcome :=
  match get_task_status r with
  | .error e => some (.pyError e)
  | .ok resp_body =>
    match resp_body.index "state" with
    | .error e => some (.pyError e)
    | .ok st =>
      match st with
      | .str s =>
        if upStr s == "ERROR" then some .errorRaise
        else if upStr s == "FINISHED" then
          some (match resp_body.index "datasetId" with
                | .ok d => .success d
                | .error e => .pyError e)
        else none
      | _ => some (.pyError .attributeError)

/-- Python `wait_for_job(client, task)` of `examples/image_upload1.py`: poll
`get_task_status` forever until a terminal poll, comparing the
upper-cased state.  Same fuel/index conventions as `wait_for_job`. -/
def image_wait_for_job (server : Nat → HttpResponse) :
    Nat → Nat → Option (ImageOutcome × Nat)
  | 0, _ => none
  | fuel + 1, i =>
    match imageStep (server i) with
    | some out => some (out, i)
    | none => image_wait_for_job server fuel (i + 1)

/-- A status-200 response whose body is the success envelope around the
object payload `kvs`: the shape `task/{id}/status` answers with. -/
def statusResp (kvs : List (String × Json)) : HttpResponse :=
  { statusCode := 200
    content := "enveloped"
    body := some (.obj [("status", .str "success"), ("payload", .obj kvs)]) }

/-- A status-200 response whose body is a raw (non-enveloped) object —
the shape `task.py`'s `wait_for_job` reads with `json.loads`. -/
def taskResp (kvs : List (String × Json)) : HttpResponse :=
  { statusCode := 200
    content := "raw"
    body := some (.obj kvs) }

/-- The loop guard of `upload_dataset` holds (the loop keeps going):
`get_task_status` succeeds and the payload's `state` field differs from
`'finished'`. -/
def helperPendingB (r : HttpResponse) : Bool :=
  match get_task_status r with
  | .error _ => false
  | .ok status =>
    match status.index "state" with
    | .error _ => false
    | .ok st => ! jsonEqStr st "finished"

/-- If polls `j ≤ i < k` are non-terminal and poll `k` is terminal with
outcome `out`, `task.py`'s loop started at `j` with enough fuel exits at
poll `k` with `out`.  The hypotheses constrain only polls up to `k`, so
responses to later polls — which never happen — are irrelevant. -/
theorem wait_for_job_exit (server : Nat → HttpResponse) (out : TaskOutcome) :
    ∀ (fuel j k : Nat), j ≤ k → k - j < fuel →
    (∀ i, j ≤ i → i < k → taskStep (server i) = none) →
    taskStep (server k) = some out →
    wait_for_job server fuel j = some (out, k) := by
  intro fuel
  induction fuel with
  | zero => intro j k _ h2 _ _; omega
  | succ n ih =>
    intro j k hjk hfuel hpend hterm
    rcases Nat.eq_or_lt_of_le hjk with heq | hlt
    · subst heq
      rw [wait_for_job, hterm]
    · have hstep : taskStep (server j) = none := hpend j le_rfl hlt
      rw [wait_for_job, hstep]
      exact ih (j + 1) k hlt (by omega)
        (fun i h1 h2 => hpend i (by omega) h2) hterm

/-- If every poll is non-terminal, `task.py`'s loop never exits,
whatever the fuel and start index. -/
theorem wait_for_job_never_exits (server : Nat → HttpResponse)
    (hpend : ∀ i, taskStep (server i) = none) :
    ∀ fuel j, wait_for_job server fuel j = none := by
  intro fuel
  induction fuel with
  | zero => intro j; rfl
  | succ n ih =>
    intro j
    rw [wait_for_job, hpend j]
    exact ih (j + 1)

/-- Exit lemma for `image_upload1.py`'s loop, as `wait_for_job_exit`. -/
theorem image_wait_exit (server : Nat → HttpResponse) (out : ImageOutcome) :
    ∀ (fuel j k : Nat), j ≤ k → k - j < fuel →
    (∀ i, j ≤ i → i < k → imageStep (server i) = none) →
    imageStep (server k) = some out →
    image_wait_for_job server fuel j = some (out, k) := by
  intro fuel
  induction fuel with
  | zero => intro j k _ h2 _ _; omega
  | succ n ih =>
    intro j k hjk hfuel hpend hterm
    rcases Nat.eq_or_lt_of_le hjk with heq | hlt
    · subst heq
      rw [image_wait_for_job, hterm]
    · have hstep : imageStep (server j) = none := hpend j le_rfl hlt
      rw [image_wait_for_job, hstep]
      exact ih (j + 1) k hlt (by omega)
        (fun i h1 h2 => hpend i (by omega) h2) hterm

/-- When every poll satisfies the loop guard of `upload_dataset`, the
loop raises `TimeoutError` at poll index `timeout / 3 + 1`, the first
index whose elapsed time `3 * i` exceeds `timeout`. -/
theorem upload_loop_timeout_exit (server : Nat → HttpResponse) (timeout : Nat)
    (hpend : ∀ i, helperPendingB (server i) = true) :
    ∀ fuel j, j ≤ timeout / 3 + 1 → (timeout / 3 + 1) - j < fuel →
    upload_dataset_loop server timeout fuel j
      = some (.timeoutRaise, timeout / 3 + 1) := by
  intro fuel
  induction fuel with
  | zero => intro j _ h2; omega
  | succ n ih =>
    intro j hj hfuel
    have hp := hpend j
    unfold helperPendingB at hp
    rw [upload_dataset_loop]
    cases hts : get_task_status (server j) with
    | error e => rw [hts] at hp; cases hp
    | ok status =>
      rw [hts] at hp
      replace hp : (match status.index "state" with
          | Except.error _ => false
          | Except.ok st => ! jsonEqStr st "finished") = true := hp
      simp only [hts]
      cases hst : status.index "state" with
      | error e => rw [hst] at hp; cases hp
      | ok st =>
        rw [hst] at hp
        replace hp : (! jsonEqStr st "finished") = true := hp
        simp only [hst]
        have hfin : jsonEqStr st "finished" = false := by simpa using hp
        simp only [hfin, Bool.false_eq_true, if_false]
        rcases Nat.eq_or_lt_of_le hj with heq | hlt
        · have hgt : 3 * j > timeout := by omega
          rw [if_pos hgt, heq]
        · have hle : ¬ (3 * j > timeout) := by omega
          rw [if_neg hle]
          exact ih (j + 1) (by omega) (by omega)

/-- C1: Envelope parsing over enveloped bodies: a status-200
response whose decoded body has `status` bound to `"success"` and
`payload` bound to `P` parses to exactly `P`, for every JSON value `P`
(no shape validation of `P`); a status-200 response whose `status` field
is bound to anything other than the string `"success"` raises
`JadRequestResponseError` — an error outcome, so no payload is ever
returned. -/
theorem c1_envelope_parsing :
    (∀ (kvs : List (String × Json)) (P : Json) (lbl c : String),
      lookupKV kvs "status" = some (.str "success") →
      lookupKV kvs "payload" = some P →
      parse_response ⟨200, c, some (.obj kvs)⟩ lbl = .ok P)
    ∧ (∀ (kvs : List (String × Json)) (st : Json) (lbl c : String),
      lookupKV kvs "status" = some st →
      jsonEqStr st "success" = false →
      parse_response ⟨200, c, some (.obj kvs)⟩ lbl
        = .error (.jadError (.obj kvs) lbl)) := by
  constructor
  · intro kvs P lbl c hs hp
    simp [parse_response, Json.index, hs, hp, jsonEqStr]
  · intro kvs st lbl c hs hfalse
    simp [parse_response, Json.index, hs, hfalse]

/-- Witness for `c1_envelope_parsing` at concrete envelopes. -/
theorem c1_envelope_parsing_witness :
    parse_response
        ⟨200, "b", some (.obj [("status", .str "success"), ("payload", .num 7)])⟩
        "Op" = .ok (.num 7)
      ∧ parse_response
          ⟨200, "b", some (.obj [("status", .str "error"), ("message", .str "m")])⟩
          "Op"
        = .error (.jadError (.obj [("status", .str "error"), ("message", .str "m")]) "Op") :=
  ⟨c1_envelope_parsing.1 _ _ "Op" "b" rfl rfl,
   c1_envelope_parsing.2 _ _ "Op" "b" rfl rfl⟩

/-- A 201 (success-class but not 200) response whose body is a logical
error envelope. -/
def c2resp : HttpResponse :=
  { statusCode := 201
    content := "c2body"
    body := some (.obj [("status", Json.str "error"), ("message", Json.str "boom")]) }

/-- C2 counterexample: The claim counts every 200-level status as
transport success, so on a 201 response with logical status `"error"`
it predicts the logical error `JadRequestResponseError`.  The code
compares the status code with 200 exactly: the 201 response raises the
transport error `RequestFailed` and its body never reaches logical
parsing. -/
theorem c2_success_class_counterexample :
    parse_response c2resp "Op" = .error (.requestFailed "Op" 201 "c2body")
      ∧ isJadError (parse_response c2resp "Op") = false :=
  ⟨rfl, rfl⟩

/-- C2 amended: Two-level error model with transport success being
exactly status code 200: every response with a status code other than
200 (201/204 included) raises `RequestFailed` carrying the operation
label, the status code and the body text, without its body reaching
logical parsing; every status-200 response whose decoded body has
logical status `"error"` raises `JadRequestResponseError` carrying the
label and the decoded body (hence the server message/code fields). -/
theorem c2_two_level_errors :
    (∀ (resp : HttpResponse) (lbl : String), resp.statusCode ≠ 200 →
      parse_response resp lbl
        = .error (.requestFailed lbl resp.statusCode resp.content))
    ∧ (∀ (kvs : List (String × Json)) (lbl c : String),
      lookupKV kvs "status" = some (.str "error") →
      parse_response ⟨200, c, some (.obj kvs)⟩ lbl
        = .error (.jadError (.obj kvs) lbl)) := by
  constructor
  · intro resp lbl hne
    unfold parse_response
    rw [if_pos hne]
  · intro kvs lbl c hs
    simp [parse_response, Json.index, hs, jsonEqStr]

/-- Witness for `c2_two_level_errors`: a 404 response and a status-200
logical-error envelope. -/
theorem c2_two_level_errors_witness :
    parse_response ⟨404, "nf", some (.obj [])⟩ "Op"
        = .error (.requestFailed "Op" 404 "nf")
      ∧ parse_response
          ⟨200, "b", some (.obj [("status", .str "error"), ("code", .str "X")])⟩
          "Op"
        = .error (.jadError (.obj [("status", .str "error"), ("code", .str "X")]) "Op") :=
  ⟨c2_two_level_errors.1 ⟨404, "nf", some (.obj [])⟩ "Op" (by decide),
   c2_two_level_errors.2 _ "Op" "b" rfl⟩

/-- The server of the C6 scenario: the task status endpoint answers the
first three polls with payload `{"state":"running"}` and every later
poll with `{"state":"finished","datasetId":"6065"}`, each wrapped in
the success envelope. -/
def c6Server : Nat → HttpResponse := fun i =>
  if i < 3 then statusResp [("state", .str "running")]
  else statusResp [("state", .str "finished"), ("datasetId", .str "6065")]

/-- C6: Polling this task through `upload_dataset`'s loop (default
timeout 600 s) with fuel for exactly 4 polls exits at poll index 3 —
so precisely 4 polls happen, and none can follow — returning the
`datasetId` string `"6065"`. -/
theorem c6_four_polls_scenario :
    upload_dataset_loop c6Server 600 4 0 = some (.success (.str "6065"), 3) := by
  rfl

/-- C8: `get_prediction_result` is the exception to the envelope
contract: on a status-200 response it returns the body text as is (no
envelope parsing — the result does not depend on the decoded body at
all); on any other status code it raises the transport error
`RequestFailed`; it never raises the logical `JadRequestResponseError`. -/
theorem c8_prediction_result_raw :
    ∀ resp : HttpResponse,
      (resp.statusCode = 200 → get_prediction_result resp = .ok resp.content)
      ∧ (resp.statusCode ≠ 200 →
        get_prediction_result resp
          = .error (.requestFailed "Get prediction result" resp.statusCode resp.content))
      ∧ (∀ (res : Json) (lbl : String),
        get_prediction_result resp ≠ .error (.jadError res lbl)) := by
  intro resp
  refine ⟨fun h200 => ?_, fun hne => ?_, fun res lbl => ?_⟩
  · unfold get_prediction_result
    rw [if_neg (by omega)]
  · unfold get_prediction_result
    rw [if_pos hne]
  · unfold get_prediction_result
    by_cases h : resp.statusCode ≠ 200
    · rw [if_pos h]; intro hcontra; cases hcontra
    · rw [if_neg h]; intro hcontra; cases hcontra

/-- Witness for `c8_prediction_result_raw`: a 200 response with a CSV
body (returned verbatim even though it is not a JSON envelope) and a
404 response. -/
theorem c8_prediction_result_raw_witness :
    get_prediction_result ⟨200, "a,b\n1,2", none⟩ = .ok "a,b\n1,2"
      ∧ get_prediction_result ⟨404, "nf", none⟩
        = .error (.requestFailed "Get prediction result" 404 "nf") :=
  ⟨(c8_prediction_result_raw ⟨200, "a,b\n1,2", none⟩).1 rfl,
   (c8_prediction_result_raw ⟨404, "nf", none⟩).2.1 (by decide)⟩

/-- A success-enveloped status whose payload binds `state` to a
non-`'finished'` value satisfies `upload_dataset`'s loop guard: the loop
treats it as pending and keeps polling. -/
theorem helperPendingB_statusResp (st : Json) (kvs : List (String × Json))
    (hlook : lookupKV kvs "state" = some st)
    (hfin : jsonEqStr st "finished" = false) :
    helperPendingB (statusResp kvs) = true := by
  have h1 : get_task_status (statusResp kvs) = Except.ok (Json.obj kvs) := rfl
  have h2 : (Json.obj kvs).index "state" = Except.ok st := by
    simp [Json.index, hlook]
  unfold helperPendingB
  simp [h1, h2, hfin]

/-- Evaluation of `imageStep` on a success-enveloped status whose payload binds
`state` to the string `s`: the branch taken depends only on the
upper-cased `s`. -/
theorem imageStep_state (kvs : List (String × Json)) (s : String)
    (hlook : lookupKV kvs "state" = some (.str s)) :
    imageStep (statusResp kvs)
      = (if upStr s == "ERROR" then some .errorRaise
         else if upStr s == "FINISHED" then
           some (match (Json.obj kvs).index "datasetId" with
                 | .ok d => ImageOutcome.success d
                 | .error e => ImageOutcome.pyError e)
         else none) := by
  have h1 : get_task_status (statusResp kvs) = Except.ok (Json.obj kvs) := rfl
  have h2 : (Json.obj kvs).index "state" = Except.ok (Json.str s) := by
    simp [Json.index, hlook]
  unfold imageStep
  simp only [h1, h2]

/-- Evaluation of `taskStep` on a status-200 raw body that binds `state` to `st`: the
branch taken compares `st` with the exact spellings `'ERROR'` and
`'FINISHED'`. -/
theorem taskStep_state (kvs : List (String × Json)) (st : Json)
    (hlook : lookupKV kvs "state" = some st) :
    taskStep (taskResp kvs)
      = (if jsonEqStr st "ERROR" then some .errorRaise
         else if jsonEqStr st "FINISHED" then
           some (match (Json.obj kvs).index "did" with
                 | .ok d => TaskOutcome.success d
                 | .error e => TaskOutcome.pyError e)
         else none) := by
  have h2 : (Json.obj kvs).index "state" = Except.ok st := by
    simp [Json.index, hlook]
  unfold taskStep
  rw [if_neg (by simp [taskResp, HttpResponse.ok])]
  simp only [taskResp, h2]

/-- C3 counterexample: In `upload_dataset`'s loop (here with
timeout 0), a poll reporting `{"state":"error"}` does not stop the
polling: the loop sleeps and performs a further status query (it exits
at poll index 1 — a second poll after the error poll — and raises
`TimeoutError`, not a task-failure error). -/
theorem c3_helper_ignores_error :
    upload_dataset_loop (fun _ => statusResp [("state", .str "error")]) 0 3 0
      = some (.timeoutRaise, 1) := by
  rfl

/-- C3 amended: For the `wait_for_job` loops of `jadbio/task.py`
and `examples/image_upload1.py`: if polls `0..k-1` are non-terminal and
poll `k` reports the ERROR terminal state, the loop exits at poll `k`
with the task-failure outcome — since only polls `0..k` are constrained,
the exit point and outcome are independent of any later response, i.e.
no sleep or status query follows the ERROR poll.  The `upload_dataset`
loop of `examples/helper.py`, however, treats every non-`'finished'`
state — `'error'` included — as pending and keeps polling until its
timeout. -/
theorem c3_error_terminal_polling :
    (∀ (server : Nat → HttpResponse) (k fuel : Nat),
      (∀ i, i < k → taskStep (server i) = none) →
      taskStep (server k) = some .errorRaise →
      k < fuel →
      wait_for_job server fuel 0 = some (.errorRaise, k))
    ∧ (∀ (server : Nat → HttpResponse) (k fuel : Nat),
      (∀ i, i < k → imageStep (server i) = none) →
      imageStep (server k) = some .errorRaise →
      k < fuel →
      image_wait_for_job server fuel 0 = some (.errorRaise, k))
    ∧ (∀ (st : Json), jsonEqStr st "finished" = false →
      ∀ (kvs : List (String × Json)), lookupKV kvs "state" = some st →
      helperPendingB (statusResp kvs) = true) := by
  refine ⟨fun server k fuel hpend hterm hfuel => ?_,
    fun server k fuel hpend hterm hfuel => ?_,
    fun st hfin kvs hlook => helperPendingB_statusResp st kvs hlook hfin⟩
  · exact wait_for_job_exit server .errorRaise fuel 0 k (Nat.zero_le k)
      (by omega) (fun i _ h2 => hpend i h2) hterm
  · exact image_wait_exit server .errorRaise fuel 0 k (Nat.zero_le k)
      (by omega) (fun i _ h2 => hpend i h2) hterm

/-- Witness for `c3_error_terminal_polling` at concrete ERROR polls. -/
theorem c3_error_terminal_polling_witness :
    wait_for_job (fun _ => taskResp [("state", .str "ERROR")]) 1 0
        = some (.errorRaise, 0)
      ∧ image_wait_for_job (fun _ => statusResp [("state", .str "ERROR")]) 1 0
        = some (.errorRaise, 0)
      ∧ helperPendingB (statusResp [("state", .str "error")]) = true :=
  ⟨c3_error_terminal_polling.1 _ 0 1 (fun i h => absurd h (Nat.not_lt_zero i))
      rfl Nat.zero_lt_one,
   c3_error_terminal_polling.2.1 _ 0 1 (fun i h => absurd h (Nat.not_lt_zero i))
      rfl Nat.zero_lt_one,
   c3_error_terminal_polling.2.2 (.str "error") rfl _ rfl⟩

/-- C4: Timeout behaviour of the wait-for-completion loops.
`upload_dataset` (poll interval 3 s): if every poll reports a
non-terminal state, the loop raises `TimeoutError` — it never silently
returns — at poll index `timeout / 3 + 1`, the first whose elapsed time
`3 * i` exceeds `timeout`; that elapsed time is at most `timeout + 3`
(T plus one poll interval).  `wait_for_job` of `jadbio/task.py` has no
timeout: while every poll is non-terminal it polls forever (the loop is
still running after any number of iterations, from any start index). -/
theorem c4_timeout_behaviour :
    (∀ (server : Nat → HttpResponse) (timeout fuel : Nat),
      (∀ i, helperPendingB (server i) = true) →
      timeout / 3 + 1 < fuel →
      upload_dataset_loop server timeout fuel 0
          = some (.timeoutRaise, timeout / 3 + 1)
        ∧ 3 * (timeout / 3 + 1) ≤ timeout + 3)
    ∧ (∀ (server : Nat → HttpResponse),
      (∀ i, taskStep (server i) = none) →
      ∀ fuel j, wait_for_job server fuel j = none) := by
  constructor
  · intro server timeout fuel hpend hfuel
    refine ⟨upload_loop_timeout_exit server timeout hpend fuel 0 (by omega) (by omega), ?_⟩
    omega
  · intro server hpend
    exact wait_for_job_never_exits server hpend

/-- Witness for `c4_timeout_behaviour`: servers stuck on a running
state; `upload_dataset` with a 10-second timeout raises `TimeoutError`
at poll index 4 (elapsed 12 ≤ 10 + 3), `wait_for_job` is still polling
after 5 iterations. -/
theorem c4_timeout_behaviour_witness :
    upload_dataset_loop (fun _ => statusResp [("state", .str "running")]) 10 6 0
        = some (.timeoutRaise, 4)
      ∧ wait_for_job (fun _ => taskResp [("state", .str "RUNNING")]) 5 0 = none :=
  ⟨(c4_timeout_behaviour.1 (fun _ => statusResp [("state", .str "running")]) 10 6
      (fun i => rfl) (by omega)).1,
   c4_timeout_behaviour.2 (fun _ => taskResp [("state", .str "RUNNING")])
      (fun i => rfl) 5 0⟩

/-- C5 counterexample: State comparison is not case-normalized.
`task.py`'s `wait_for_job` is still polling after 5 polls of a server
that reports the terminal state in lower case (`{"state":"finished"}`
with the result reference present) at every poll — the lower-case
spelling is not recognized.  Dually, `upload_dataset`'s loop does not
recognize upper-case `'FINISHED'`: it keeps polling and raises
`TimeoutError` at poll index 4. -/
theorem c5_casing_counterexample :
    wait_for_job (fun _ => taskResp [("state", .str "finished"), ("did", .str "6065")]) 5 0
        = none
      ∧ upload_dataset_loop
          (fun _ => statusResp [("state", .str "FINISHED"), ("datasetId", .str "6065")])
          9 6 0
        = some (.timeoutRaise, 4) :=
  ⟨rfl, rfl⟩

/-- C5 amended: Only `examples/image_upload1.py`'s `wait_for_job`
treats state comparison as case-normalized: it upper-cases the reported
state, so any casing of `error` (resp. `finished`) maps to the ERROR
(resp. FINISHED) terminal outcome.  `jadbio/task.py`'s loop string-
matches the two exact upper-case spellings and treats every other state
string as pending, and `upload_dataset` string-matches the exact
lower-case `'finished'` and treats every other state as pending. -/
theorem c5_case_normalization :
    (∀ (s : String) (kvs : List (String × Json)),
      upStr s = "ERROR" →
      lookupKV kvs "state" = some (.str s) →
      imageStep (statusResp kvs) = some .errorRaise)
    ∧ (∀ (s : String) (kvs : List (String × Json)) (d : Json),
      upStr s = "FINISHED" →
      lookupKV kvs "state" = some (.str s) →
      lookupKV kvs "datasetId" = some d →
      imageStep (statusResp kvs) = some (.success d))
    ∧ (∀ (s : String) (kvs : List (String × Json)),
      (s == "ERROR") = false → (s == "FINISHED") = false →
      lookupKV kvs "state" = some (.str s) →
      taskStep (taskResp kvs) = none)
    ∧ (∀ (s : String) (kvs : List (String × Json)),
      (s == "finished") = false →
      lookupKV kvs "state" = some (.str s) →
      helperPendingB (statusResp kvs) = true) := by
  refine ⟨fun s kvs hup hlook => ?_, fun s kvs d hup hlook hd => ?_,
    fun s kvs hE hF hlook => ?_, fun s kvs hF hlook => ?_⟩
  · rw [imageStep_state kvs s hlook, hup]
    simp
  · have hd2 : (Json.obj kvs).index "datasetId" = Except.ok d := by
      simp [Json.index, hd]
    rw [imageStep_state kvs s hlook, hup, hd2]
    simp
  · rw [taskStep_state kvs (.str s) hlook]
    simp [jsonEqStr, hE, hF]
  · exact helperPendingB_statusResp (.str s) kvs hlook (by simpa [jsonEqStr] using hF)

/-- Witness for `c5_case_normalization`: mixed-case states through the
image loop step, and each exact-match loop at the other casing. -/
theorem c5_case_normalization_witness :
    imageStep (statusResp [("state", .str "Error")]) = some .errorRaise
      ∧ imageStep (statusResp [("state", .str "finished"), ("datasetId", .str "7")])
        = some (.success (.str "7"))
      ∧ taskStep (taskResp [("state", .str "finished")]) = none
      ∧ helperPendingB (statusResp [("state", .str "FINISHED")]) = true :=
  ⟨c5_case_normalization.1 "Error" _ (by decide) rfl,
   c5_case_normalization.2.1 "finished" _ (.str "7") (by decide) rfl rfl,
   c5_case_normalization.2.2.1 "finished" _ (by decide) (by decide) rfl,
   c5_case_normalization.2.2.2 "FINISHED" _ (by decide) rfl⟩

/-- A client whose session is closed and whose stored token is cleared:
the state right after `logout()`. -/
def noTokenClient : ClientState :=
  { baseUrl := "https://jadapi.jadbio.com/api/public/v1/"
    session := { gen := 1, closed := true }
    token := none }

/-- A server that answers every request with the success envelope
around `{"version":"1.0-beta"}`. -/
def versionTransport : HttpRequest → HttpResponse := fun _ =>
  statusResp [("version", .str "1.0-beta")]

/-- A server that answers every request with 401 Unauthorized. -/
def unauthorizedTransport : HttpRequest → HttpResponse := fun _ =>
  { statusCode := 401, content := "unauth", body := none }

/-- C7 counterexample: Invoking `get_version` on a logged-out
client (token cleared) raises nothing client-side: against a server
that answers successfully, the call returns the version — no
`NotAuthenticatedError` exists in the code, and no client-side check
precedes the round trip. -/
theorem c7_logged_out_succeeds :
    get_version noTokenClient versionTransport = .ok (.str "1.0-beta") := rfl

/-- C7 amended: With no stored token, an operation is sent to the
server anyway, with no `Authorization` header (`headers=None`), and its
outcome is decided entirely by the server's response: the payload field
on a success envelope, and the transport error `RequestFailed` on a
non-200 status.  There is no client-side authentication check and no
client-side authentication error. -/
theorem c7_no_client_side_auth_check :
    ∀ (c : ClientState) (transport : HttpRequest → HttpResponse),
      c.token = none →
      (get_version_request c).authHeader = none
      ∧ (∀ v : Json,
          transport (get_version_request c) = statusResp [("version", v)] →
          get_version c transport = .ok v)
      ∧ (∀ r : HttpResponse,
          transport (get_version_request c) = r → r.statusCode ≠ 200 →
          get_version c transport
            = .error (.requestFailed "Get Version" r.statusCode r.content)) := by
  intro c transport htok
  refine ⟨by simp [get_version_request, htok], fun v hresp => ?_, fun r hresp hne => ?_⟩
  · unfold get_version
    rw [hresp]
    rfl
  · unfold get_version
    rw [hresp]
    unfold parse_response
    rw [if_pos hne]
    rfl

/-- Witness for `c7_no_client_side_auth_check`: the logged-out client
against the successful and the 401 server. -/
theorem c7_no_client_side_auth_check_witness :
    (get_version_request noTokenClient).authHeader = none
      ∧ get_version noTokenClient versionTransport = .ok (.str "1.0-beta")
      ∧ get_version noTokenClient unauthorizedTransport
        = .error (.requestFailed "Get Version" 401 "unauth") :=
  ⟨(c7_no_client_side_auth_check noTokenClient versionTransport rfl).1,
   (c7_no_client_side_auth_check noTokenClient versionTransport rfl).2.1
      (.str "1.0-beta") rfl,
   (c7_no_client_side_auth_check noTokenClient unauthorizedTransport rfl).2.2
      ⟨401, "unauth", none⟩ rfl (by decide)⟩

/-- C9: `logout` is idempotent and a no-op on an already-cleared
client: composing `logout` with itself equals one `logout` (same
post-state), and on a client whose session is already closed and whose
token is already cleared it returns the state unchanged.  `logout` is a
total function of the model — `Session.close()` and clearing the token
raise nothing, so the call never raises to the caller. -/
theorem c9_logout_idempotent :
    (∀ c : ClientState, logout (logout c) = logout c)
    ∧ (∀ c : ClientState,
      c.session.closed = true → c.token = none → logout c = c) := by
  constructor
  · intro c; rfl
  · intro c hclosed htok
    obtain ⟨b, ⟨g, cl⟩, t⟩ := c
    cases cl with
    | false => cases hclosed
    | true =>
      cases t with
      | none => rfl
      | some s => cases htok

/-- Witness for `c9_logout_idempotent`: a concrete already-logged-out
client is a fixed point of `logout`. -/
theorem c9_logout_idempotent_witness :
    logout ⟨"https://h/api/public/v1/", ⟨3, true⟩, none⟩
      = ⟨"https://h/api/public/v1/", ⟨3, true⟩, none⟩ :=
  c9_logout_idempotent.2 ⟨"https://h/api/public/v1/", ⟨3, true⟩, none⟩ rfl rfl

/-- C10: `login` is not atomic on failure: whenever the login call
raises (here: the parse of the response, or the token extraction,
fails), the stored token is left unchanged — the old credential would
still be attached to later requests — while the underlying session
object has already been replaced by a fresh open one (`self.__session =
Session()` runs before the credential exchange is validated). -/
theorem c10_login_not_atomic :
    ∀ (c : ClientState) (resp : HttpResponse) (t : String) (e : ClientError),
      c.token = some t →
      (login c resp).2 = .error e →
      (login c resp).1.token = some t
      ∧ (login c resp).1.session.gen = c.session.gen + 1
      ∧ (login c resp).1.session.closed = false := by
  intro c resp t e htok herr
  unfold login at herr ⊢
  cases hpr : (parse_response resp "Login").bind (fun p => p.index "token") with
  | error e2 =>
    exact ⟨htok, rfl, rfl⟩
  | ok tj =>
    cases tj with
    | str s =>
      rw [hpr] at herr
      simp at herr
    | null => exact ⟨htok, rfl, rfl⟩
    | bool b => exact ⟨htok, rfl, rfl⟩
    | num n => exact ⟨htok, rfl, rfl⟩
    | arr elems => exact ⟨htok, rfl, rfl⟩
    | obj kvs => exact ⟨htok, rfl, rfl⟩

/-- A client holding a stored token from an earlier login. -/
def staleClient : ClientState :=
  { baseUrl := "https://h/api/public/v1/"
    session := { gen := 0, closed := false }
    token := some "Bearer old" }

/-- A 401 response rejecting the new credentials. -/
def deniedResp : HttpResponse :=
  { statusCode := 401, content := "denied", body := none }

/-- Witness for `c10_login_not_atomic`: a rejected re-login leaves the
old token in place but has already swapped in a fresh session. -/
theorem c10_login_not_atomic_witness :
    (login staleClient deniedResp).1.token = some "Bearer old"
      ∧ (login staleClient deniedResp).1.session.gen = 1
      ∧ (login staleClient deniedResp).1.session.closed = false :=
  c10_login_not_atomic staleClient deniedResp "Bearer old"
    (.requestFailed "Login" 401 "denied") rfl rfl
